import Mathlib

/-!
Verification of the LLM Knowledge Extractor service against its design
specification.

The development shallowly embeds the Python sources:

* `app/services/nlp_service.py` — keyword extraction (`extract_keywords`);
* `app/services/llm_service.py` — the LLM metadata extractor boundary
  (`TextAnalyzer.forward`, `analyze_text`);
* `app/main.py` — the request handler for `POST /analyze` and `GET /search`;
* `app/database.py` — the `analyses` table and its append-only store.

External collaborators (spaCy's tokenizer, the LLM itself, the `json` module,
CPython's `collections.Counter`, and the SQLite engine) are modelled at their
documented interfaces: the tokenizer's output is an explicit `List Token`
argument, the LLM's raw payload is an explicit `ParseOutcome` argument, and
`Counter.most_common` / SQL `LIKE` / `ORDER BY` are given executable models of
their documented behaviour.  Doc comments on each definition name the source
lines they translate.
-/

set_option maxRecDepth 10000

namespace KnowledgeExtractor

/-! ## Python string primitives -/

/-- Model of CPython `str.lower()` restricted to the ASCII range (every string
the claims touch is ASCII): lower-case each character. -/
def lowerChars (s : String) : List Char := s.toList.map Char.toLower

/-- `charsStartWith sub l` is `true` iff `l` starts with `sub`
(character-by-character comparison). -/
def charsStartWith : List Char → List Char → Bool
  | [], _ => true
  | _ :: _, [] => false
  | a :: sub, b :: l => a == b && charsStartWith sub l

/-- `charsContain l sub` is `true` iff `sub` occurs contiguously inside `l`:
the model of CPython's substring test `sub in l`. -/
def charsContain : List Char → List Char → Bool
  | [], sub => sub.isEmpty
  | b :: l, sub => charsStartWith sub (b :: l) || charsContain l sub

/-- Python `sub in s` on strings. -/
def strIn (sub s : String) : Bool := charsContain s.toList sub.toList

/-- Model of the guard `if not text or not text.strip():` used by both
`extract_keywords` (nlp_service.py:42) and the LLM service
(llm_service.py:70,134): the string is empty or consists of whitespace only
(Python strips Unicode whitespace; the ASCII whitespace classifier suffices
for every input the claims quantify over). -/
def isBlank (s : String) : Bool := s.isEmpty || s.toList.all Char.isWhitespace

/-! ## Keyword extraction (`app/services/nlp_service.py`) -/

/-- A tagged token as produced by the spaCy collaborator for the lower-cased
input text (nlp_service.py:46).  The fields carry exactly the attributes the
source reads: lemma, coarse part-of-speech tag, surface text, and the
stop-word / punctuation / alphabetic flags. -/
structure Token where
  lemma_ : String
  pos_ : String
  text : String
  is_stop : Bool
  is_punct : Bool
  is_alpha : Bool
deriving DecidableEq

/-- The token filter of nlp_service.py:50-57: keep a token iff its
part-of-speech tag is `NOUN` or `PROPN`, it is not a stop word, it is not
punctuation, its surface form is longer than 2 characters, and it is purely
alphabetic. -/
def keep (t : Token) : Bool :=
  (t.pos_ == "NOUN" || t.pos_ == "PROPN")
    && !t.is_stop
    && !t.is_punct
    && decide (2 < t.text.length)
    && t.is_alpha

/-- The list comprehension of nlp_service.py:50-57: the lemmas of the tokens
that pass the filter, in token order (the source's local variable `nouns`). -/
def nouns (doc : List Token) : List String :=
  (doc.filter keep).map Token.lemma_

/-- The distinct elements of `l` in order of first occurrence.  This is the
key order of the CPython `Counter(nouns)` dictionary (collections.Counter is
a `dict`, whose keys are ordered by first insertion). -/
def firstSeen : List String → List String
  | [] => []
  | x :: xs => x :: firstSeen (xs.filter (fun y => y != x))
termination_by l => l.length
decreasing_by
  simp only [List.length_cons]
  exact Nat.lt_succ_of_le (List.length_filter_le _ _)

/-- Model of CPython `Counter(l).most_common(n)` (keys only), from the
documented behaviour of `collections.Counter`: elements ordered by count,
largest first, and "elements with equal counts are ordered in the order first
encountered".  Equivalently: a stable sort of the first-seen distinct keys by
descending count, truncated to `n`.  The model lists, for each candidate
count from `l.length` down to `0`, the keys having exactly that count, in
first-seen order. -/
def most_common (l : List String) (n : Nat) : List String :=
  (((List.range (l.length + 1)).reverse.map
      (fun c => (firstSeen l).filter (fun k => l.count k == c))).flatten).take n

/-- `extract_keywords` (nlp_service.py:17-67).  The `doc` argument stands for
the spaCy collaborator's output `nlp(text.lower())`; everything else is a
direct translation: return `[]` on blank input, filter to qualifying noun
tokens (the source's local variable `nouns`), return `[]` when none qualify,
otherwise count lemma frequency and return the `top_n` most common lemmas. -/
def extract_keywords (text : String) (doc : List Token) (top_n : Nat) : List String :=
  if isBlank text then []
  else if (nouns doc).isEmpty then []
  else most_common (nouns doc) top_n

/-! ## LLM metadata extractor (`app/services/llm_service.py`) -/

/-- `ExtractedMetadata` (llm_service.py:8-18).  The Pydantic model declares
types only — the field descriptions ("3 key topics", "one of positive,
neutral, negative", "0.0-1.0") are documentation, not validators — so the
embedding carries the same unconstrained fields.  `confidence` is a Python
float; the claims only ever compare it against 0, 1 and exact literals, so it
is modelled as a rational. -/
structure ExtractedMetadata where
  summary : String
  title : Option String
  topics : List String
  sentiment : String
  confidence : ℚ
deriving DecidableEq

/-- The Python exceptions the analyze flow distinguishes.
`validationError` stands for `pydantic.ValidationError`, which in Pydantic v2
(the version in use: `models.py` imports `ConfigDict`) is a subclass of
`ValueError` and is therefore caught by the handler's `except ValueError`
clause. -/
inductive PyExc where
  | valueError (msg : String)
  | validationError (msg : String)
  | runtimeError (msg : String)
  | otherError (msg : String)
deriving DecidableEq

/-- `str(e)` on the exceptions above. -/
def PyExc.msg : PyExc → String
  | .valueError m => m
  | .validationError m => m
  | .runtimeError m => m
  | .otherError m => m

/-- Outcome of the two collaborator steps applied to the raw string the LLM
returned (llm_service.py:77-83): `json.loads` either raises
`JSONDecodeError` or yields a dict, and `ExtractedMetadata(**dict)` either
raises `pydantic.ValidationError` or yields a validated model. -/
inductive ParseOutcome where
  | jsonError (msg : String)
  | validationError (msg : String)
  | ok (m : ExtractedMetadata)
deriving DecidableEq

/-- `TextAnalyzer.forward` (llm_service.py:56-83): reject blank text with
`ValueError`; re-raise a JSON decode failure as
`ValueError("Failed to parse LLM response as JSON: ...")` (line 80); let a
Pydantic validation failure propagate; return the validated metadata
otherwise. -/
def TextAnalyzer.forward (text : String) (outcome : ParseOutcome) :
    Except PyExc ExtractedMetadata :=
  if isBlank text then .error (.valueError "Text cannot be empty")
  else
    match outcome with
    | .jsonError e => .error (.valueError ("Failed to parse LLM response as JSON: " ++ e))
    | .validationError e => .error (.validationError e)
    | .ok m => .ok m

/-- The `except Exception` wrapper of `analyze_text` (llm_service.py:145-149):
re-raise as `RuntimeError` when the message mentions the API or rate
limiting (`"API" in str(e) or "rate" in str(e).lower()`), otherwise re-raise
the original exception. -/
def wrapLLMError (e : PyExc) : PyExc :=
  if strIn "API" e.msg || charsContain (lowerChars e.msg) "rate".toList then
    .runtimeError ("LLM API error: " ++ e.msg)
  else e

/-- `analyze_text` (llm_service.py:115-149): reject blank text with
`ValueError`; reject with `ValueError("DSPy not configured. ...")` when the
module-level analyzer singleton has not been initialised (`configured` models
`_analyzer is not None`); otherwise run the analyzer and apply the
`RuntimeError` wrapping to any exception it raises. -/
def analyze_text (configured : Bool) (text : String) (outcome : ParseOutcome) :
    Except PyExc ExtractedMetadata :=
  if isBlank text then .error (.valueError "Text cannot be empty")
  else if configured = false then
    .error (.valueError "DSPy not configured. Call configure_dspy() before analyzing text.")
  else
    match TextAnalyzer.forward text outcome with
    | .ok m => .ok m
    | .error e => .error (wrapLLMError e)

/-! ## Persistence (`app/database.py`) and the analyze flow (`app/main.py`) -/

/-- A row of the `analyses` table (database.py:11-24).  `topics` and
`keywords` hold JSON-serialized arrays, `confidence` is stored as a string,
and `created_at` is the persistence timestamp (modelled as a natural
number). -/
structure Analysis where
  id : Nat
  raw_text : String
  summary : String
  title : Option String
  topics : String
  sentiment : String
  keywords : String
  confidence : String
  created_at : Nat
deriving DecidableEq

/-- Model of `json.dumps` on a list of strings (main.py:101,103), as the
collaborator serialises it: a bracketed, comma-separated list of quoted
elements.  (Escaping of special characters inside elements is elided; no
claim depends on it.) -/
def jsonDumps (l : List String) : String :=
  "[" ++ String.intercalate ", " (l.map (fun s => "\"" ++ s ++ "\"")) ++ "]"

/-- The record store: the rows of the `analyses` table in insertion order,
plus the next value of the integer primary key.  SQLite assigns the primary
key of an inserted row as one more than the largest key in use, and the
table is append-only (no update or delete anywhere in the repository), so a
running counter is a faithful model. -/
structure Store where
  records : List Analysis
  nextId : Nat
deriving DecidableEq

/-- The freshly initialised store: no rows, first key 1. -/
def emptyStore : Store := ⟨[], 1⟩

/-- The HTTP status produced by the handler's `except` clauses
(main.py:122-136): `ValueError` → 400, `RuntimeError` → 503, anything else →
503.  `validationError` lands in the 400 branch because Pydantic v2's
`ValidationError` subclasses `ValueError`. -/
def statusOf : PyExc → Nat
  | .valueError _ => 400
  | .validationError _ => 400
  | .runtimeError _ => 503
  | .otherError _ => 503

/-- The `AnalysisResponse` payload (models.py:21-36) returned on success
(main.py:111-120).  Its `topics`/`keywords` are `json.loads` of the stored
strings and `confidence` is `float` of the stored string; since the store was
just written with `json.dumps`/`str` of those very values, the collaborator
round-trips are identities and the payload carries the original values. -/
structure AnalysisResponse where
  id : Nat
  summary : String
  title : Option String
  topics : List String
  sentiment : String
  keywords : List String
  confidence : ℚ
  created_at : Nat
deriving DecidableEq

/-- Outcome of one `POST /analyze` request: the HTTP status, the response
payload when the status is 201, and the store after the request. -/
structure FlowResult where
  status : Nat
  response : Option AnalysisResponse
  store : Store
deriving DecidableEq

/-- The `analyze` handler (main.py:89-136).  `time` is the persistence
timestamp the database assigns.  The two extraction steps run inside one
`try` block in source order — keywords first, metadata second — and any
exception either step raises is mapped to a status by the `except` clauses;
`kw` and `md` are the steps' outcomes (on the normal path
`kw = .ok (extract_keywords text doc 3)` and
`md = analyze_text configured text outcome`; `kw` is an `Except` because an
exception escaping the spaCy collaborator would be caught by the same
clauses).  Only when both succeed is a row constructed, appended and
committed (main.py:97-108), and the response echoes the row. -/
def analyze (store : Store) (time : Nat) (text : String)
    (kw : Except PyExc (List String)) (md : Except PyExc ExtractedMetadata) : FlowResult :=
  match kw with
  | .error e => ⟨statusOf e, none, store⟩
  | .ok keywords =>
    match md with
    | .error e => ⟨statusOf e, none, store⟩
    | .ok m =>
      let row : Analysis :=
        { id := store.nextId
          raw_text := text
          summary := m.summary
          title := m.title
          topics := jsonDumps m.topics
          sentiment := m.sentiment
          keywords := jsonDumps keywords
          confidence := toString m.confidence
          created_at := time }
      { status := 201
        response := some
          { id := row.id
            summary := row.summary
            title := row.title
            topics := m.topics
            sentiment := row.sentiment
            keywords := keywords
            confidence := m.confidence
            created_at := row.created_at }
        store := { records := store.records ++ [row], nextId := store.nextId + 1 } }

/-! ## The search flow (`app/main.py:139-192`) -/

/-- Model of `column LIKE '%' || lower(pat) || '%'` on SQLite (main.py:168-171):
the handler lower-cases the search term and SQLite's `LIKE` is
case-insensitive on ASCII, so the combined collaborator behaviour is
case-insensitive substring containment. -/
def likeMatch (column pat : String) : Bool :=
  charsContain (lowerChars column) (lowerChars pat)

/-- The `ORDER BY created_at DESC` ordering (main.py:175): `a` is at least as
recent as `b`. -/
def moreRecentFirst (a b : Analysis) : Prop := b.created_at ≤ a.created_at

instance : DecidableRel moreRecentFirst := fun _ _ => Nat.decLe _ _

instance : IsTotal Analysis moreRecentFirst :=
  ⟨fun a b => le_total b.created_at a.created_at⟩

instance : IsTrans Analysis moreRecentFirst :=
  ⟨fun _ _ _ h1 h2 => le_trans h2 h1⟩

/-- The `search` handler (main.py:139-192): start from all rows, apply the
topic filter only when the query parameter is present and non-empty (Python's
`if topic:` treats `None` and `""` alike), and return the rows ordered most
recent first (the database's `ORDER BY created_at DESC` is modelled as a
sort by `moreRecentFirst`). -/
def search (store : Store) (topic : Option String) : List Analysis :=
  let filtered :=
    match topic with
    | none => store.records
    | some t =>
      if t.isEmpty then store.records
      else store.records.filter (fun r => likeMatch r.topics t || likeMatch r.keywords t)
  List.insertionSort moreRecentFirst filtered

/-- The persistence invariant of the `analyses` table: every stored key is
below the next key to be assigned, and keys strictly increase in insertion
order. -/
def StoreInv (s : Store) : Prop :=
  (∀ r ∈ s.records, r.id < s.nextId) ∧ s.records.Pairwise (fun a b => a.id < b.id)

/-! ## Helper lemmas -/

/-- Every element of `firstSeen l` occurs in `l`. -/
theorem mem_of_mem_firstSeen : ∀ (l : List String) (a : String), a ∈ firstSeen l → a ∈ l := by
  intro l
  induction l using firstSeen.induct with
  | case1 => intro a ha; simp [firstSeen] at ha
  | case2 x xs ih =>
    intro a ha
    rw [firstSeen] at ha
    rcases List.mem_cons.mp ha with rfl | ha
    · exact List.mem_cons_self _ _
    · exact List.mem_cons_of_mem _ (List.mem_of_mem_filter (ih a ha))

/-- `firstSeen l` has no duplicates. -/
theorem firstSeen_nodup : ∀ l : List String, (firstSeen l).Nodup := by
  intro l
  induction l using firstSeen.induct with
  | case1 => simp [firstSeen]
  | case2 x xs ih =>
    rw [firstSeen]
    refine List.nodup_cons.mpr ⟨?_, ih⟩
    intro hx
    have := List.of_mem_filter (mem_of_mem_firstSeen _ _ hx)
    simp at this

/-- In any list, earlier elements are related to later ones by the
"forms a two-element sublist" relation. -/
theorem pairwise_pair_sublist (l : List String) :
    l.Pairwise (fun a b => List.Sublist [a, b] l) :=
  List.pairwise_iff_forall_sublist.mpr (fun h => h)

/-- The strictly-descending count order of the strata enumerated by
`most_common`. -/
theorem pairwise_gt_range_reverse (m : Nat) :
    ((List.range m).reverse).Pairwise (fun a b => b < a) :=
  List.pairwise_reverse.mpr (List.pairwise_lt_range m)

/-- Core ordering property of the `Counter.most_common` model: the output is
ordered by descending count, ties resolved by first-seen key order. -/
theorem most_common_pairwise (l : List String) (n : Nat) :
    (most_common l n).Pairwise (fun a b =>
      l.count b < l.count a ∨ (l.count a = l.count b ∧ List.Sublist [a, b] (firstSeen l))) := by
  apply List.Pairwise.sublist (List.take_sublist _ _)
  rw [List.pairwise_flatten]
  refine ⟨?_, ?_⟩
  · intro s hs
    simp only [List.mem_map] at hs
    obtain ⟨c, _, rfl⟩ := hs
    rw [List.pairwise_iff_forall_sublist]
    intro a b hab
    have hsubkeys : List.Sublist [a, b] (firstSeen l) := hab.trans (List.filter_sublist _)
    have ha : a ∈ (firstSeen l).filter (fun k => l.count k == c) :=
      hab.subset (by simp)
    have hb : b ∈ (firstSeen l).filter (fun k => l.count k == c) :=
      hab.subset (by simp)
    have hca : l.count a = c := by simpa using (List.mem_filter.mp ha).2
    have hcb : l.count b = c := by simpa using (List.mem_filter.mp hb).2
    exact Or.inr ⟨hca.trans hcb.symm, hsubkeys⟩
  · rw [List.pairwise_map]
    refine (pairwise_gt_range_reverse (l.length + 1)).imp ?_
    intro c₁ c₂ hlt x hx y hy
    have hcx : l.count x = c₁ := by simpa using (List.mem_filter.mp hx).2
    have hcy : l.count y = c₂ := by simpa using (List.mem_filter.mp hy).2
    exact Or.inl (by omega)

/-- The `Counter.most_common` model never repeats a key. -/
theorem most_common_nodup (l : List String) (n : Nat) :
    (most_common l n).Nodup := by
  apply List.Nodup.sublist (List.take_sublist _ _)
  rw [List.nodup_flatten]
  refine ⟨?_, ?_⟩
  · intro s hs
    simp only [List.mem_map] at hs
    obtain ⟨c, _, rfl⟩ := hs
    exact (firstSeen_nodup l).filter _
  · rw [List.pairwise_map]
    refine (pairwise_gt_range_reverse (l.length + 1)).imp ?_
    intro c₁ c₂ hlt x hx₁ hx₂
    have h1 : l.count x = c₁ := by simpa using (List.mem_filter.mp hx₁).2
    have h2 : l.count x = c₂ := by simpa using (List.mem_filter.mp hx₂).2
    omega

/-! ## Claim theorems -/

/-- C3: for every input text and every `top_n`, the sequence returned by
`extract_keywords` is ordered by descending lemma frequency, strictly except
that lemmas of equal frequency appear in the first-seen (insertion) order of
the lemmas in the filtered token stream (`firstSeen (nouns doc)`), not in
alphabetical order. -/
theorem extract_keywords_ordered_by_frequency_then_first_seen
    (text : String) (doc : List Token) (top_n : Nat) :
    (extract_keywords text doc top_n).Pairwise (fun a b =>
      (nouns doc).count b < (nouns doc).count a ∨
      ((nouns doc).count a = (nouns doc).count b ∧ List.Sublist [a, b] (firstSeen (nouns doc)))) := by
  unfold extract_keywords
  split
  · exact List.Pairwise.nil
  · split
    · exact List.Pairwise.nil
    · exact most_common_pairwise _ _

/-- C10: for every input text and every `top_n`, the sequence returned by
`extract_keywords` contains no duplicate elements. -/
theorem extract_keywords_nodup (text : String) (doc : List Token) (top_n : Nat) :
    (extract_keywords text doc top_n).Nodup := by
  unfold extract_keywords
  split
  · exact List.nodup_nil
  · split
    · exact List.nodup_nil
    · exact most_common_nodup _ _

/-- C4: a tagged token's lemma is counted by `extract_keywords` if and only
if its part-of-speech class is common-noun (`NOUN`) or proper-noun (`PROPN`),
it is not a stopword, it is not punctuation, its surface length exceeds 2
characters, and it is purely alphabetic: the filter accepts exactly those
tokens, and the frequency of each lemma is the number of accepted tokens
carrying it. -/
theorem extract_keywords_counts_token_iff_filter (doc : List Token) :
    (∀ t : Token, keep t = true ↔
      ((t.pos_ = "NOUN" ∨ t.pos_ = "PROPN") ∧ t.is_stop = false ∧ t.is_punct = false ∧
        2 < t.text.length ∧ t.is_alpha = true))
    ∧ ∀ lem : String, (nouns doc).count lem
        = (doc.filter (fun t => keep t && (t.lemma_ == lem))).length := by
  constructor
  · intro t
    simp [keep, Bool.and_eq_true, Bool.or_eq_true, and_assoc]
  · intro lem
    rw [nouns, List.count_eq_countP, List.countP_map,
      ← List.countP_eq_length_filter, List.countP_filter]
    congr 1
    funext t
    simp [Function.comp, Bool.and_comm]

/-- C7: for every empty or whitespace-only input string and every `top_n`,
`extract_keywords` returns the empty sequence (the function is total, so no
error is raised). -/
theorem extract_keywords_blank_input (text : String) (doc : List Token) (top_n : Nat)
    (h : isBlank text = true) :
    extract_keywords text doc top_n = [] := by
  simp [extract_keywords, h]

/-- Witness for C7 at the whitespace-only input `"   "`. -/
theorem extract_keywords_blank_input_witness :
    isBlank "   " = true ∧ extract_keywords "   " [] 3 = [] :=
  ⟨by decide, extract_keywords_blank_input "   " [] 3 (by decide)⟩

/-- A concrete store with one persisted record, used by witnesses. -/
def demoStore : Store :=
  { records := [
      { id := 1
        raw_text := "AI is transforming healthcare."
        summary := "AI improves healthcare."
        title := none
        topics := "[\"ai\", \"healthcare\", \"technology\"]"
        sentiment := "positive"
        keywords := "[\"healthcare\"]"
        confidence := "9/10"
        created_at := 5 }]
    nextId := 2 }

/-- C5: for every store state, `search` with an absent or empty topic returns
all stored records ordered most-recent-first, and `search` with a present
non-empty topic returns exactly those records whose serialized topics or
serialized keywords contain the topic as a case-insensitive substring
(`likeMatch`), also ordered most-recent-first. -/
theorem search_returns_matches_most_recent_first (store : Store) (topic : Option String) :
    List.Sorted moreRecentFirst (search store topic)
    ∧ ((topic = none ∨ topic = some "") → (search store topic).Perm store.records)
    ∧ (∀ t : String, topic = some t → t ≠ "" →
        (search store topic).Perm (store.records.filter
          (fun r => likeMatch r.topics t || likeMatch r.keywords t))) := by
  refine ⟨List.sorted_insertionSort _ _, ?_, ?_⟩
  · rintro (rfl | rfl)
    · exact List.perm_insertionSort _ _
    · simp only [search, String.isEmpty_iff, if_pos rfl]
      exact List.perm_insertionSort _ _
  · rintro t rfl hne
    simp only [search, String.isEmpty_iff, if_neg hne]
    exact List.perm_insertionSort _ _

/-- Witness for C5 at `demoStore` with the non-empty topic `"ai"`. -/
theorem search_returns_matches_most_recent_first_witness :
    (search demoStore (some "ai")).Perm (demoStore.records.filter
      (fun r => likeMatch r.topics "ai" || likeMatch r.keywords "ai")) :=
  (search_returns_matches_most_recent_first demoStore (some "ai")).2.2 "ai" rfl (by decide)

/-- C2: for every analyze request, if any stage before persistence fails —
keyword extraction, metadata extraction, or anything else that prevents the
201 success path — the record store is left unchanged: no partial record is
ever persisted. -/
theorem analyze_failure_leaves_store_unchanged (store : Store) (time : Nat) (text : String)
    (kw : Except PyExc (List String)) (md : Except PyExc ExtractedMetadata)
    (h : (analyze store time text kw md).status ≠ 201) :
    (analyze store time text kw md).store = store := by
  cases kw with
  | error e => rfl
  | ok keywords =>
    cases md with
    | error e => rfl
    | ok m => exact absurd rfl h

/-- Witness for C2 at a metadata-extraction failure. -/
theorem analyze_failure_leaves_store_unchanged_witness :
    (analyze emptyStore 0 "hi" (Except.ok [])
      (Except.error (PyExc.runtimeError "LLM API error: boom"))).status ≠ 201
    ∧ (analyze emptyStore 0 "hi" (Except.ok [])
        (Except.error (PyExc.runtimeError "LLM API error: boom"))).store = emptyStore :=
  ⟨by decide, analyze_failure_leaves_store_unchanged _ _ _ _ _ (by decide)⟩

/-- C9: the analyze flow preserves the persistence invariant — every stored
identifier is below the next key and identifiers strictly increase in
creation order — so of any two records persisted by the flow, the one created
later has a strictly greater identifier, and identifiers (assigned at
creation from the store's key counter) are unique. -/
theorem analyze_assigns_strictly_increasing_ids (store : Store) (time : Nat) (text : String)
    (kw : Except PyExc (List String)) (md : Except PyExc ExtractedMetadata)
    (hinv : StoreInv store) :
    StoreInv (analyze store time text kw md).store
    ∧ (analyze store time text kw md).store.records.Pairwise (fun a b => a.id < b.id)
    ∧ ((analyze store time text kw md).store.records.map Analysis.id).Nodup := by
  have base : ∀ s : Store, StoreInv s →
      s.records.Pairwise (fun a b => a.id < b.id) ∧ (s.records.map Analysis.id).Nodup := by
    intro s hs
    refine ⟨hs.2, ?_⟩
    unfold List.Nodup
    rw [List.pairwise_map]
    exact hs.2.imp (fun h => Nat.ne_of_lt h)
  have hinv' : StoreInv (analyze store time text kw md).store := by
    cases kw with
    | error e => exact hinv
    | ok keywords =>
      cases md with
      | error e => exact hinv
      | ok m =>
        constructor
        · intro r hr
          rcases List.mem_append.mp hr with hold | hnew
          · exact Nat.lt_trans (hinv.1 r hold) (Nat.lt_succ_self _)
          · rcases List.mem_singleton.mp hnew with rfl
            exact Nat.lt_succ_self _
        · refine List.pairwise_append.mpr ⟨hinv.2, List.pairwise_singleton _ _, ?_⟩
          intro a ha b hb
          rcases List.mem_singleton.mp hb with rfl
          exact hinv.1 a ha
  exact ⟨hinv', (base _ hinv').1, (base _ hinv').2⟩

/-- Witness for C9: one successful analyze flow from the fresh store. -/
theorem analyze_assigns_strictly_increasing_ids_witness :
    StoreInv (analyze emptyStore 0 "hi" (Except.ok ["kw"])
      (Except.ok { summary := "s", title := none, topics := ["a", "b", "c"],
                   sentiment := "positive", confidence := 1 })).store
    ∧ (analyze emptyStore 0 "hi" (Except.ok ["kw"])
        (Except.ok { summary := "s", title := none, topics := ["a", "b", "c"],
                     sentiment := "positive", confidence := 1 })).store.records.Pairwise
        (fun a b => a.id < b.id)
    ∧ ((analyze emptyStore 0 "hi" (Except.ok ["kw"])
        (Except.ok { summary := "s", title := none, topics := ["a", "b", "c"],
                     sentiment := "positive", confidence := 1 })).store.records.map
        Analysis.id).Nodup :=
  analyze_assigns_strictly_increasing_ids emptyStore 0 "hi" _ _
    ⟨by simp [emptyStore], by simp [emptyStore]⟩

/-- C8: for every non-empty (non-blank) input text, calling `analyze_text`
before the model has been configured fails with the input/state `ValueError`,
which the handler maps to 400 — a 4xx input error, not a 503 service
error. -/
theorem analyze_text_unconfigured_input_error (text : String) (outcome : ParseOutcome)
    (store : Store) (time : Nat) (keywords : List String)
    (h : isBlank text = false) :
    analyze_text false text outcome =
      Except.error (PyExc.valueError
        "DSPy not configured. Call configure_dspy() before analyzing text.")
    ∧ (analyze store time text (Except.ok keywords)
        (analyze_text false text outcome)).status = 400 := by
  have h1 : analyze_text false text outcome =
      Except.error (PyExc.valueError
        "DSPy not configured. Call configure_dspy() before analyzing text.") := by
    simp [analyze_text, h]
  exact ⟨h1, by rw [h1]; rfl⟩

/-- Witness for C8 at the non-blank text `"hello"`. -/
theorem analyze_text_unconfigured_input_error_witness :
    isBlank "hello" = false
    ∧ ((analyze emptyStore 0 "hello" (Except.ok [])
        (analyze_text false "hello" (ParseOutcome.ok
          { summary := "s", title := none, topics := [], sentiment := "neutral",
            confidence := 0 }))).status = 400) :=
  ⟨by decide,
    (analyze_text_unconfigured_input_error "hello" _ emptyStore 0 [] (by decide)).2⟩

/-- C6 counterexample: the claim that every successful (201) analyze response
has exactly 3 topics, an enumerated sentiment, and confidence in `[0, 1]` is
false on the code — `ExtractedMetadata` carries no validators, so a
successfully parsed payload with 1 topic, the sentiment `"excited"`, and
confidence `2` flows through to a 201 response unchanged. -/
theorem analyze_success_echoes_unvalidated_metadata :
    (analyze emptyStore 0 "hello" (Except.ok [])
      (Except.ok { summary := "s", title := none, topics := ["a"],
                   sentiment := "excited", confidence := 2 })).status = 201
    ∧ ((analyze emptyStore 0 "hello" (Except.ok [])
        (Except.ok { summary := "s", title := none, topics := ["a"],
                     sentiment := "excited", confidence := 2 })).response.map
        (fun p => (p.topics.length, p.sentiment, p.confidence)))
      = some (1, "excited", 2) := by
  constructor
  · rfl
  · rfl

/-- C6 (amended): the 201 response echoes the extractor's validated payload
field-for-field, so whenever the extractor's returned metadata has exactly 3
topics, an enumerated sentiment, and confidence in `[0, 1]`, the response
does too; the server itself does not enforce those bounds. -/
theorem analyze_success_response_fields (store : Store) (time : Nat) (text : String)
    (keywords : List String) (m : ExtractedMetadata)
    (h3 : m.topics.length = 3)
    (hs : m.sentiment = "positive" ∨ m.sentiment = "neutral" ∨ m.sentiment = "negative")
    (h0 : 0 ≤ m.confidence) (h1 : m.confidence ≤ 1) :
    (analyze store time text (Except.ok keywords) (Except.ok m)).status = 201
    ∧ ∃ p : AnalysisResponse,
        (analyze store time text (Except.ok keywords) (Except.ok m)).response = some p
        ∧ p.topics.length = 3
        ∧ (p.sentiment = "positive" ∨ p.sentiment = "neutral" ∨ p.sentiment = "negative")
        ∧ 0 ≤ p.confidence ∧ p.confidence ≤ 1 :=
  ⟨rfl, _, rfl, h3, hs, h0, h1⟩

/-- Witness for the amended C6 at a well-formed metadata payload. -/
theorem analyze_success_response_fields_witness :
    (analyze emptyStore 0 "hello" (Except.ok ["kw"])
      (Except.ok { summary := "s", title := none, topics := ["a", "b", "c"],
                   sentiment := "neutral", confidence := 1/2 })).status = 201
    ∧ ∃ p : AnalysisResponse,
        (analyze emptyStore 0 "hello" (Except.ok ["kw"])
          (Except.ok { summary := "s", title := none, topics := ["a", "b", "c"],
                       sentiment := "neutral", confidence := 1/2 })).response = some p
        ∧ p.topics.length = 3
        ∧ (p.sentiment = "positive" ∨ p.sentiment = "neutral" ∨ p.sentiment = "negative")
        ∧ 0 ≤ p.confidence ∧ p.confidence ≤ 1 :=
  analyze_success_response_fields emptyStore 0 "hello" ["kw"] _
    (by decide) (by simp) (by norm_num) (by norm_num)

/-- C1 is a code bug: when the metadata extractor's returned payload is not
valid JSON, `TextAnalyzer.forward` re-raises the decode failure as a
`ValueError` (llm_service.py:80), which the handler's `except ValueError`
clause maps to 400 — although the handler's own docstring (main.py:76,
"Invalid LLM response: Catches JSON parsing errors → 503 error") and the
specification both require 503.  This theorem evaluates the flow at the
failing input. -/
theorem analyze_invalid_json_maps_to_400 :
    (analyze emptyStore 0 "The product launch went well."
      (Except.ok ["product", "launch"])
      (analyze_text true "The product launch went well."
        (ParseOutcome.jsonError "Expecting value: line 1 column 1 (char 0)"))).status
      = 400 := by
  decide

end KnowledgeExtractor
